import Mathlib

/-!
Shallow embedding of the zestors supervision core, checked against its
natural-language specification.

The embedded files are:
* `src/zestors/src/supervision/combinator_specs/one_for_one.rs`
  (the one-for-one combinator: `OneForOneItem`, `OneForOneSpec`,
  `OneForOneStartFut`, `OneForOneSupervisee`);
* `src/zestors/src/supervision/channel_spec.rs` (the reference-forwarding
  wrapper `RefSenderSpec` and its start future);
* `src/zestors-core/src/boxed_msg.rs` (`BoxedMessage`).

The dynamic-erasure layer (`DynSpec`, `DynStartFut`, `DynSupervisee`), the
`Specification`/`Supervisee` traits and the `RestartLimiter` are not part of
the given sources; they are modelled as opaque tokens (the erased children
are driven by an explicit per-poll environment), and the limiter is modelled
from the spec.  Time is modelled as `Nat` instants passed explicitly to every
operation that reads the clock; a tokio `sleep(d)` armed at instant `t` is a
deadline `t + d` that has fired at every instant `now` with `t + d ≤ now`.
-/

namespace Zestors

/-- Opaque boxed error (`BoxError`), identified by a token. -/
abbrev BoxError := Nat

/-- Opaque type-erased specification (`DynSpec`), identified by a token. -/
abbrev DynSpec := Nat

/-- Opaque type-erased in-flight start future (`DynStartFut`); starting a
`DynSpec` yields the future carrying the same token. -/
abbrev DynStartFut := Nat

/-- Opaque type-erased running supervisee (`DynSupervisee`): an identifying
token plus instrumentation counting how many `halt`/`abort` signals the
substrate has received from the combinator. -/
structure DynSupervisee where
  id : Nat
  halts : Nat := 0
  aborts : Nat := 0
deriving DecidableEq, Repr

/-- `DynSupervisee::halt` at the substrate boundary: records one halt signal. -/
def DynSupervisee.halt (s : DynSupervisee) : DynSupervisee :=
  { s with halts := s.halts + 1 }

/-- `DynSupervisee::abort` at the substrate boundary: records one abort signal. -/
def DynSupervisee.abort (s : DynSupervisee) : DynSupervisee :=
  { s with aborts := s.aborts + 1 }

/-- Modelled from the spec: `RestartLimiter` (its source file is not under
`src/`).  §3/§4.1: it owns a maximum restart count `limit` and a trailing
window `within`, and keeps a log of recorded attempt instants. -/
structure RestartLimiter where
  limit : Nat
  within : Nat
  attempts : List Nat := []
deriving DecidableEq, Repr

/-- Modelled from the spec: `RestartLimiter::within_limit` (§4.1): records the
current instant as a restart attempt, discards recorded attempts older than
`within`, and returns whether the number of attempts remaining in the window
is still ≤ `limit`. -/
def RestartLimiter.within_limit (l : RestartLimiter) (now : Nat) :
    RestartLimiter × Bool :=
  let kept := l.attempts.filter (fun t => decide (now ≤ t + l.within))
  let recorded := now :: kept
  ({ l with attempts := recorded }, decide (recorded.length ≤ l.limit))

/-- `RestartLimiter::new(limit, within)`. -/
def RestartLimiter.new (limit within : Nat) : RestartLimiter :=
  { limit := limit, within := within, attempts := [] }

namespace OneForOne

/-- `OneForOneItem` from `one_for_one.rs`: the per-child slot.  `Spec` is the
spec's `Pending` state, `StartFut` is `Starting`, `Supervisee` is `Running`,
`Irrecoverable` is `Failed`, `Completed` is `Done`. -/
inductive OneForOneItem where
  | Spec (spec : DynSpec)
  | StartFut (fut : DynStartFut)
  | Supervisee (sup : DynSupervisee) (deadline : Option Nat)
  | Irrecoverable (e : BoxError)
  | Completed
deriving DecidableEq, Repr

/-- `OneForOneItem::start`: replaces a `Spec` item by the `StartFut` obtained
from starting it; any other variant is the `"was not a spec"` error.  (The
Rust version swaps the item out through a temporary `Completed`; the observable
result is the same.) -/
def OneForOneItem.start : OneForOneItem → Except String OneForOneItem
  | .Spec spec => .ok (.StartFut spec)
  | _ => .error "was not a spec"

/-- `OneForOneSpec` from `one_for_one.rs`: an ordered collection of slots plus
the shared restart limiter. -/
structure OneForOneSpec where
  items : List OneForOneItem
  limiter : RestartLimiter
deriving DecidableEq, Repr

/-- `OneForOneSpec::new(limit, within)`. -/
def OneForOneSpec.new (limit within : Nat) : OneForOneSpec :=
  { items := [], limiter := RestartLimiter.new limit within }

/-- `OneForOneSpec::add_spec`: pushes the erased spec onto the items. -/
def OneForOneSpec.add_spec (s : OneForOneSpec) (spec : DynSpec) : OneForOneSpec :=
  { s with items := s.items ++ [OneForOneItem.Spec spec] }

/-- `OneForOneSpec::with_spec`: the consuming version of `add_spec`. -/
def OneForOneSpec.with_spec (s : OneForOneSpec) (spec : DynSpec) : OneForOneSpec :=
  s.add_spec spec

/-- The loop body of `OneForOneSpec::pop_spec`, popping from the back of the
item list (here: the front of the reversed list): a popped `Spec` is returned,
a popped non-`Spec` item is discarded and the loop continues. -/
def popSpecRev : List OneForOneItem → Option DynSpec × List OneForOneItem
  | [] => (none, [])
  | .Spec spec :: rest => (some spec, rest)
  | _ :: rest => popSpecRev rest

/-- `OneForOneSpec::pop_spec`. -/
def OneForOneSpec.pop_spec (s : OneForOneSpec) : Option DynSpec × OneForOneSpec :=
  let r := popSpecRev s.items.reverse
  (r.1, { s with items := r.2.reverse })

/-- `OneForOneSupervisee` from `one_for_one.rs`. -/
structure OneForOneSupervisee where
  inner : Option OneForOneSpec
  halted : Bool
  aborted : Bool
deriving DecidableEq, Repr

/-- `OneForOneSupervisee::new`. -/
def OneForOneSupervisee.new (inner : OneForOneSpec) : OneForOneSupervisee :=
  { inner := some inner, halted := false, aborted := false }

/-- The `OneForOneError(&'static str, OneForOneSpec)` payload carried by an
irrecoverable group verdict. -/
structure OneForOneError where
  msg : String
  state : OneForOneSpec
deriving DecidableEq, Repr

/-- `StartError<OneForOneSpec>` as used by `one_for_one.rs`: `Failed` carries
a retryable spec, `Completed` reports nothing left to start, `Irrecoverable`
carries the boxed group error. -/
inductive StartError where
  | Failed (spec : OneForOneSpec)
  | Completed
  | Irrecoverable (e : OneForOneError)
deriving DecidableEq, Repr

/-- `StartResult<OneForOneSpec> = Result<(OneForOneSupervisee, ()), StartError>`. -/
abbrev StartResult := Except StartError (OneForOneSupervisee × Unit)

/-- The flag-accumulating loop of `OneForOneStartFut::take_start_now`:
computes `(ok, irrecoverable, completed)` over the items.  `ok` starts `true`
and is cleared by `StartFut` and `Irrecoverable` items; `irrecoverable` starts
`false` and is set by `StartFut`, `Supervisee` and `Irrecoverable` items;
`completed` starts `true` and is cleared by `Spec` items. -/
def verdictFlags : List OneForOneItem → Bool × Bool × Bool
  | [] => (true, false, true)
  | i :: rest =>
    let r := verdictFlags rest
    match i with
    | .StartFut _ => (false, true, r.2.2)
    | .Supervisee _ _ => (r.1, true, r.2.2)
    | .Irrecoverable _ => (false, true, r.2.2)
    | .Spec _ => (r.1, r.2.1, false)
    | .Completed => r

/-- Whether an item is a `Spec` (a `Pending` slot). -/
def OneForOneItem.isSpec : OneForOneItem → Bool
  | .Spec _ => true
  | _ => false

/-- `OneForOneStartFut::take_start_now`: the final verdict computed over the
inner spec when the draining phase ends. -/
def take_start_now (inner : OneForOneSpec) : StartResult :=
  let r := verdictFlags inner.items
  if r.1 then
    .ok (OneForOneSupervisee.new inner, ())
  else if r.2.1 then
    .error (.Irrecoverable { msg := "Error: ", state := inner })
  else if r.2.2 then
    .error .Completed
  else
    .error (.Failed { items := inner.items.filter OneForOneItem.isSpec,
                      limiter := inner.limiter })

/-- `Poll<T>` of the async runtime. -/
inductive Poll (α : Type) where
  | ready (a : α)
  | pending
deriving DecidableEq, Repr

/-- `OneForOneStartFut`.  The tokio `Sleep` timer is the instant at which it
fires; `none` means the timeout has already been triggered (as in the Rust
field's doc comment). -/
structure OneForOneStartFut where
  inner : Option OneForOneSpec
  timer : Option Nat
  shutdown_time : Nat
  start_failure : Bool
deriving DecidableEq, Repr

/-- `OneForOneStartFut::new(inner, start_time, shutdown_time)`, armed at
instant `now` (the Rust constructor arms `sleep(start_time)` at creation). -/
def OneForOneStartFut.new (inner : OneForOneSpec) (start_time shutdown_time now : Nat) :
    OneForOneStartFut :=
  { inner := some inner, timer := some (now + start_time),
    shutdown_time := shutdown_time, start_failure := false }

/-- The `fold` inside `OneForOneSpec::start` computing the fan-out deadline:
the running maximum of the children's `start_time`s, rejecting (Rust:
panicking on) any non-`Spec` item. -/
def maxStartTime (startTimeOf : DynSpec → Nat) :
    Nat → List OneForOneItem → Except String Nat
  | acc, [] => .ok acc
  | acc, item :: rest =>
    match item with
    | .Spec spec => maxStartTime startTimeOf (max (startTimeOf spec) acc) rest
    | _ => .error "panicked: item was not a spec"

/-- The per-item start loop inside `OneForOneSpec::start`: every item is
replaced by `OneForOneItem.start`, stopping at the first (Rust: panicking)
non-`Spec` item. -/
def startItems : List OneForOneItem → Except String (List OneForOneItem)
  | [] => .ok []
  | i :: rest => do
    let i' ← i.start
    let rest' ← startItems rest
    .ok (i' :: rest')

/-- `OneForOneSpec::start` (the `Specification` impl): computes the fan-out
deadline as the maximum child `start_time` plus 10ms of slack, turns every
item into its start future, and builds the start future.  The fold and the
per-item `start` calls reject (Rust: panic on) any non-`Spec` item, modelled
by `Except`.  `startTimeOf` stands for `DynSpec::start_time` of the erased
children; `now` is the instant at which the timer is armed. -/
def OneForOneSpec.start (s : OneForOneSpec) (startTimeOf : DynSpec → Nat) (now : Nat) :
    Except String OneForOneStartFut := do
  let start_time ← maxStartTime startTimeOf 0 s.items
  let start_time := start_time + 10
  let items ← startItems s.items
  Except.ok (OneForOneStartFut.new { s with items := items } start_time start_time now)

/-- `OneForOneStartFut::time_limit_reached`: polls the timer; a fired timer is
replaced by `none` and reports `true`; an already-`none` timer reports `true`. -/
def time_limit_reached (timer : Option Nat) (now : Nat) : Option Nat × Bool :=
  match timer with
  | some deadline =>
    if deadline ≤ now then (none, true) else (some deadline, false)
  | none => (none, true)

/-- What polling one child's in-flight start future returns, as decided by the
substrate environment for one poll call. -/
inductive StartPoll where
  | pending
  | ok (sup : DynSupervisee)
  | completed
  | failed (spec : DynSpec)
  | irrecoverable (e : BoxError)
deriving DecidableEq, Repr

/-- What polling one child's running supervisee returns, as decided by the
substrate environment for one poll call: still running, exit requesting a
restart (`Ok(Some(spec))`), finished (`Ok(None)`), or fatal (`Err(e)`). -/
inductive ExitPoll where
  | pending
  | restart (spec : DynSpec)
  | finished
  | fatal (e : BoxError)
deriving DecidableEq, Repr

/-- Result of one pass of the fan-out loop: the updated items and limiter, the
`all_ready` flag, the `start_failure` flag, and (instrumentation) the ordered
trace of the `within_limit` results of this pass. -/
structure FanOutRes where
  items : List OneForOneItem
  limiter : RestartLimiter
  allReady : Bool
  startFailure : Bool
  limTrace : List Bool
deriving DecidableEq, Repr

/-- The fan-out `'inner` loop of `OneForOneStartFut::poll` (the
`!start_failure` branch): each `StartFut` item at position `idx` is polled
(its result given by `env idx`); `started` becomes `Supervisee`, `Completed`
becomes `Completed`, `Failed` puts the spec back (`Pending`) and consumes one
limiter unit, `Irrecoverable` records the error and consumes one limiter unit;
when the limiter reports exhaustion the loop breaks at once, leaving the
remaining items untouched.  `all_ready` is cleared exactly by a start future
that is still pending. -/
def fanOutStep (env : Nat → StartPoll) (now : Nat) :
    Nat → RestartLimiter → List OneForOneItem → FanOutRes
  | _, limiter, [] =>
    { items := [], limiter := limiter, allReady := true, startFailure := false,
      limTrace := [] }
  | idx, limiter, item :: rest =>
    match item with
    | .StartFut fut =>
      match env idx with
      | .pending =>
        let r := fanOutStep env now (idx + 1) limiter rest
        { r with items := .StartFut fut :: r.items, allReady := false }
      | .ok sup =>
        let r := fanOutStep env now (idx + 1) limiter rest
        { r with items := .Supervisee sup none :: r.items }
      | .completed =>
        let r := fanOutStep env now (idx + 1) limiter rest
        { r with items := .Completed :: r.items }
      | .failed spec =>
        let l := limiter.within_limit now
        if l.2 then
          let r := fanOutStep env now (idx + 1) l.1 rest
          { r with items := .Spec spec :: r.items, limTrace := l.2 :: r.limTrace }
        else
          { items := .Spec spec :: rest, limiter := l.1, allReady := true,
            startFailure := true, limTrace := [l.2] }
      | .irrecoverable e =>
        let l := limiter.within_limit now
        if l.2 then
          let r := fanOutStep env now (idx + 1) l.1 rest
          { r with items := .Irrecoverable e :: r.items,
                   limTrace := l.2 :: r.limTrace }
        else
          { items := .Irrecoverable e :: rest, limiter := l.1, allReady := true,
            startFailure := true, limTrace := [l.2] }
    | other =>
      let r := fanOutStep env now (idx + 1) limiter rest
      { r with items := other :: r.items }

/-- The draining `'inner` loop of `OneForOneStartFut::poll` (the
`start_failure` branch): `StartFut` items are still polled (a new `started`
outcome becomes `Supervisee` and clears `all_ready`), `Supervisee` items are
polled for their exit, and every other item is left alone.  Returns the
updated items and the `all_ready` flag. -/
def drainStep (envS : Nat → StartPoll) (envE : Nat → ExitPoll) :
    Nat → List OneForOneItem → List OneForOneItem × Bool
  | _, [] => ([], true)
  | idx, item :: rest =>
    let r := drainStep envS envE (idx + 1) rest
    match item with
    | .StartFut fut =>
      match envS idx with
      | .pending => (.StartFut fut :: r.1, false)
      | .ok sup => (.Supervisee sup none :: r.1, false)
      | .completed => (.Completed :: r.1, r.2)
      | .failed spec => (.Spec spec :: r.1, r.2)
      | .irrecoverable e => (.Irrecoverable e :: r.1, r.2)
    | .Supervisee sup deadline =>
      match envE idx with
      | .pending => (.Supervisee sup deadline :: r.1, false)
      | .restart spec => (.Spec spec :: r.1, r.2)
      | .finished => (.Completed :: r.1, r.2)
      | .fatal e => (.Irrecoverable e :: r.1, r.2)
    | other => (other :: r.1, r.2)

/-- The draining branch of `OneForOneStartFut::poll`: one drain pass over the
items, then `all_ready || time_limit_reached` decides between
`take_start_now` and `Pending` (the timer is only polled when `all_ready` is
false, mirroring the short-circuit in the source). -/
def drainPhase (fut : OneForOneStartFut) (inner : OneForOneSpec) (now : Nat)
    (envS : Nat → StartPoll) (envE : Nat → ExitPoll) :
    OneForOneStartFut × Poll StartResult :=
  let d := drainStep envS envE 0 inner.items
  let inner := { inner with items := d.1 }
  if d.2 then
    ({ fut with inner := none }, .ready (take_start_now inner))
  else
    let t := time_limit_reached fut.timer now
    if t.2 then
      ({ fut with inner := none, timer := t.1 }, .ready (take_start_now inner))
    else
      ({ fut with inner := some inner, timer := t.1 }, .pending)

/-- `<OneForOneStartFut as Future>::poll`, driven by explicit inputs: the
current instant `now` and the substrate environment (`envS` for start
futures, `envE` for supervisee exits, both indexed by slot position and fixed
for the duration of this one poll call).  Returns `none` when the Rust code
would panic on `inner.as_mut().unwrap()` (the future was polled after
completion).  Mirrors the `'outer` loop: the fan-out branch either resolves
with a group success, stays pending, or — on limiter exhaustion or a fired
fan-out timer — re-arms the timer with `shutdown_time` and falls through to
the draining branch within the same call. -/
def pollStartFut (fut : OneForOneStartFut) (now : Nat)
    (envS : Nat → StartPoll) (envE : Nat → ExitPoll) :
    Option (OneForOneStartFut × Poll StartResult) :=
  match fut.inner with
  | none => none
  | some inner =>
    if fut.start_failure then
      some (drainPhase fut inner now envS envE)
    else
      let f := fanOutStep envS now 0 inner.limiter inner.items
      let inner := { inner with items := f.items, limiter := f.limiter }
      if f.startFailure then
        let fut := { fut with inner := some inner,
                              timer := some (now + fut.shutdown_time),
                              start_failure := true }
        some (drainPhase fut inner now envS envE)
      else if f.allReady then
        some ({ fut with inner := none },
              .ready (.ok (OneForOneSupervisee.new inner, ())))
      else
        let t := time_limit_reached fut.timer now
        if t.2 then
          let fut := { fut with inner := some inner,
                                timer := some (now + fut.shutdown_time),
                                start_failure := true }
          some (drainPhase fut inner now envS envE)
        else
          some ({ fut with inner := some inner, timer := t.1 }, .pending)

/-- The loop body of `OneForOneSupervisee::halt`: a `Running` slot's
supervisee receives one halt signal, every other slot is untouched. -/
def haltItem : OneForOneItem → OneForOneItem
  | .Supervisee sup deadline => .Supervisee sup.halt deadline
  | other => other

/-- The loop body of `OneForOneSupervisee::abort`. -/
def abortItem : OneForOneItem → OneForOneItem
  | .Supervisee sup deadline => .Supervisee sup.abort deadline
  | other => other

/-- `<OneForOneSupervisee as Supervisee>::halt`: sets the `halted` flag and
halts every `Supervisee` slot; `none` models the `unwrap` panic when `inner`
has been taken. -/
def OneForOneSupervisee.halt (s : OneForOneSupervisee) : Option OneForOneSupervisee :=
  match s.inner with
  | none => none
  | some inner =>
    some { s with halted := true,
                  inner := some { inner with items := inner.items.map haltItem } }

/-- `<OneForOneSupervisee as Supervisee>::abort`. -/
def OneForOneSupervisee.abort (s : OneForOneSupervisee) : Option OneForOneSupervisee :=
  match s.inner with
  | none => none
  | some inner =>
    some { s with aborted := true,
                  inner := some { inner with items := inner.items.map abortItem } }

/-- `ExitResult<OneForOneSpec> = Result<Option<OneForOneSpec>, BoxError>`. -/
abbrev ExitResult := Except BoxError (Option OneForOneSpec)

/-- Whether an item is a `StartFut` (a `Starting` slot). -/
def OneForOneItem.isStartFut : OneForOneItem → Bool
  | .StartFut _ => true
  | _ => false

/-- Whether an item is an `Irrecoverable` (a `Failed` slot). -/
def OneForOneItem.isIrrecoverable : OneForOneItem → Bool
  | .Irrecoverable _ => true
  | _ => false

/-- How many `StartFut` slots of `items` the environment resolves with a
`failed`-recoverable or `irrecoverable` outcome this pass (each such
resolution is one restart decision). -/
def countFailures (env : Nat → StartPoll) : Nat → List OneForOneItem → Nat
  | _, [] => 0
  | idx, item :: rest =>
    let c := countFailures env (idx + 1) rest
    match item with
    | .StartFut _ =>
      match env idx with
      | .failed _ => c + 1
      | .irrecoverable _ => c + 1
      | _ => c
    | _ => c

/-- Whether a poll outcome is `Ready(Ok(..))`: the start future resolved with
a running group supervisee. -/
def isReadyOk : Option (OneForOneStartFut × Poll StartResult) → Bool
  | some (_, .ready (.ok _)) => true
  | _ => false

/-- Whether a poll outcome is `Ready(Err(Irrecoverable(..)))`: the start
future resolved with a group-wide irrecoverable failure. -/
def isReadyIrrecoverable : Option (OneForOneStartFut × Poll StartResult) → Bool
  | some (_, .ready (.error (.Irrecoverable _))) => true
  | _ => false

/-- Whether an `Except` is `Ok` (no error, no panic). -/
def exceptIsOk : Except ε α → Bool
  | .ok _ => true
  | .error _ => false

/-- The `OneForOneSpec` values obtainable through the public interface:
`new`, `add_spec` (and `with_spec`, which is definitionally `add_spec`),
`pop_spec`, and the retryable spec carried by a `Failed` start verdict. -/
inductive ReachableSpec : OneForOneSpec → Prop where
  | new (limit within : Nat) : ReachableSpec (OneForOneSpec.new limit within)
  | add (s : OneForOneSpec) (d : DynSpec) :
      ReachableSpec s → ReachableSpec (s.add_spec d)
  | pop (s : OneForOneSpec) : ReachableSpec s → ReachableSpec s.pop_spec.2
  | retry (inner s' : OneForOneSpec) :
      take_start_now inner = .error (.Failed s') → ReachableSpec s'

/-- The group of the start-failure scenario: restart limit `lim` over window
`w`, three children `a`, `b`, `c`. -/
def c1Group (a b c : DynSpec) (lim w : Nat) : OneForOneSpec :=
  (((OneForOneSpec.new lim w).add_spec a).add_spec b).add_spec c

/-- First-poll environment of the start-failure scenario: child 0's start
fails recoverably handing its spec back, children 1 and 2 start. -/
def c1Env1 (a : DynSpec) (supB supC : DynSupervisee) : Nat → StartPoll
  | 0 => .failed a
  | 1 => .ok supB
  | _ => .ok supC

/-- The concrete start-failure run: limit 0 (so the single recoverable
failure already exceeds the budget), children `1`, `2`, `3`; first poll at
instant 0 (child 0 fails, children 1 and 2 start), second poll at instant 10
(the draining shutdown timer has fired, both healthy children still
running). -/
def c1Run : Option (OneForOneStartFut × Poll StartResult) :=
  match (c1Group 1 2 3 0 100).start (fun _ => 0) 0 with
  | .error _ => none
  | .ok fut₀ =>
    match pollStartFut fut₀ 0 (c1Env1 1 ⟨2, 0, 0⟩ ⟨3, 0, 0⟩) (fun _ => .pending) with
    | some (st₁, .pending) =>
      pollStartFut st₁ 10 (fun _ => .pending) (fun _ => .pending)
    | _ => none

/-- A two-child start future mid fan-out: both children `Starting`, restart
limit 1 (budget not yet exhausted), fan-out timer armed for instant 50. -/
def c3Fut : OneForOneStartFut :=
  { inner := some { items := [.StartFut 1, .StartFut 2],
                    limiter := RestartLimiter.new 1 100 },
    timer := some 50, shutdown_time := 50, start_failure := false }

/-- Fan-out environment for `c3Fut`: child 0's start fails recoverably
(within budget), child 1 starts. -/
def c3Env : Nat → StartPoll
  | 0 => .failed 1
  | _ => .ok ⟨2, 0, 0⟩

/-- Environment for the limiter-policy witness: slot 0 fails recoverably,
slot 1 fails irrecoverably, slot 2 starts. -/
def c4Env : Nat → StartPoll
  | 0 => .failed 5
  | 1 => .irrecoverable 6
  | _ => .ok ⟨7, 0, 0⟩

/-- `<OneForOneSupervisee as Future>::poll`.  The source body is `todo!()`:
every call panics with "not yet implemented", modelled as an `error` result
regardless of the state, the clock, or the environment. -/
def OneForOneSupervisee.poll (_s : OneForOneSupervisee) (_now : Nat)
    (_envE : Nat → ExitPoll) :
    Except String (OneForOneSupervisee × Poll ExitResult) :=
  .error "not yet implemented"

end OneForOne

namespace ChannelSpec

/-- `StartError<S>` as used by `channel_spec.rs` (`Failure` carries the
retryable spec, `Finished` reports completion, `Unhandled` a boxed error). -/
inductive StartError (S : Type) where
  | Failure (spec : S)
  | Finished
  | Unhandled (e : BoxError)
deriving DecidableEq, Repr

/-- `RefSenderSpec<Sp>`: the wrapped spec plus the (optional) sending half of
the unbounded reference channel; the sender is identified by a token, the
channel's contents live in `Channel`. -/
structure RefSenderSpec (S : Type) where
  spec : S
  sender : Option Nat
deriving DecidableEq, Repr

/-- `RefSenderSupervisee<Sp>`: the wrapped running supervisee plus the
preserved sender. -/
structure RefSenderSupervisee (Sup : Type) where
  supervisee : Sup
  sender : Option Nat
deriving DecidableEq, Repr

/-- The state of the unbounded mpsc channel: the ordered list of references
pushed so far and whether the receiving half is still alive. -/
structure Channel (R : Type) where
  sent : List R
  receiverOpen : Bool
deriving DecidableEq, Repr

/-- `UnboundedSender::send`: appends when the receiver is alive, otherwise
fails leaving the channel unchanged.  The `Bool` is whether the push
succeeded. -/
def Channel.send (c : Channel R) (r : R) : Channel R × Bool :=
  if c.receiverOpen then ({ c with sent := c.sent ++ [r] }, true) else (c, false)

/-- `RefSenderSpec::new(spec)`: fresh channel (empty, receiver alive), sender
token `0`, sender present. -/
def RefSenderSpec.new (S R : Type) (spec : S) :
    RefSenderSpec S × Channel R :=
  ({ spec := spec, sender := some 0 }, { sent := [], receiverOpen := true })

/-- What the wrapped specification's own start future resolved to (the
`Poll::Ready` payload of `proj.fut.poll(cx)`). -/
inductive InnerStart (S R Sup : Type) where
  | ok (sup : Sup) (r : R)
  | failure (spec : S)
  | finished
  | unhandled (e : BoxError)
deriving DecidableEq, Repr

/-- `StartResult<RefSenderSpec<Sp>>`. -/
abbrev RefStartResult (S Sup : Type) :=
  Except (StartError (RefSenderSpec S)) (RefSenderSupervisee Sup × Unit)

/-- The `Poll::Ready` arm of `<RefSenderSpecFut as Future>::poll`, given the
wrapped future's resolved outcome: on success the sender is taken
(`none` models the `unwrap` panic), the produced reference is pushed onto the
channel with the push result ignored, and the supervisee is returned with the
sender restored; on a recoverable failure nothing is pushed and the returned
spec keeps the same sender; `Finished`/`Unhandled` pass through. -/
def refSenderPollReady {S R Sup : Type} (sender : Option Nat) (chan : Channel R)
    (res : InnerStart S R Sup) :
    Option (Channel R × RefStartResult S Sup) :=
  match res with
  | .ok sup r =>
    match sender with
    | none => none
    | some tok =>
      let c := chan.send r
      some (c.1, .ok ({ supervisee := sup, sender := some tok }, ()))
  | .failure spec =>
    match sender with
    | none => none
    | some tok =>
      some (chan, .error (.Failure { spec := spec, sender := some tok }))
  | .finished => some (chan, .error .Finished)
  | .unhandled e => some (chan, .error (.Unhandled e))

end ChannelSpec

namespace Core

/-- `BoxedMessage` from `boxed_msg.rs`, shallowly embedding `Box<dyn Any>`:
`code` is the `TypeId` of the boxed `Sends<M>` type (distinct message types
have distinct codes), `F code` its payload type, `val` the stored value. -/
structure BoxedMessage (F : Nat → Type) where
  code : Nat
  val : F code

/-- `BoxedMessage::new::<M>(sends)`: erases a `Sends<M>` value under `M`'s
type code. -/
def BoxedMessage.new (F : Nat → Type) (c : Nat) (v : F c) : BoxedMessage F :=
  { code := c, val := v }

/-- `BoxedMessage::downcast::<M>`: succeeds with the stored value exactly when
the stored type code matches, otherwise hands the untouched envelope back
(Rust: `Err(Self(boxed))`). -/
def BoxedMessage.downcast (m : BoxedMessage F) (c : Nat) :
    Except (BoxedMessage F) (F c) :=
  if h : m.code = c then .ok (h ▸ m.val) else .error m

end Core

end Zestors

namespace Zestors

namespace OneForOne

/-- The `ok` verdict flag can only be cleared by an item that also sets the
`irrecoverable` flag. -/
lemma verdictFlags_ok_or_irr (items : List OneForOneItem) :
    (verdictFlags items).1 = true ∨ (verdictFlags items).2.1 = true := by
  induction items with
  | nil => left; rfl
  | cons i rest ih =>
    cases i <;> simp only [verdictFlags] <;>
      first
        | (right; trivial)
        | exact ih

/-- If no item is `Starting` and no item is `Failed` then the `ok` verdict
flag holds. -/
lemma verdictFlags_ok_of_settled (items : List OneForOneItem)
    (h : ∀ i ∈ items, i.isStartFut = false ∧ i.isIrrecoverable = false) :
    (verdictFlags items).1 = true := by
  induction items with
  | nil => rfl
  | cons i rest ih =>
    have hi := h i (List.mem_cons_self i rest)
    have hrest : ∀ j ∈ rest, j.isStartFut = false ∧ j.isIrrecoverable = false :=
      fun j hj => h j (List.mem_cons_of_mem i hj)
    cases i with
    | Spec spec => simpa [verdictFlags] using ih hrest
    | StartFut f => simp [OneForOneItem.isStartFut] at hi
    | Supervisee sup d => simpa [verdictFlags] using ih hrest
    | Irrecoverable e => simp [OneForOneItem.isIrrecoverable] at hi
    | Completed => simpa [verdictFlags] using ih hrest

/-- C2.  The spec's running-phase contract says polling the group supervisee
polls each `Running` slot independently and transitions it on exit to
`Pending` / `Done` / `Failed`, never panicking.  The source's
`impl Future for OneForOneSupervisee` body is `todo!()`, so every poll of a
group supervisee — whatever its slots, the instant, or the substrate's
answers — panics with "not yet implemented" instead.  The code contradicts
the spec's intent here, so this supports a `code_bug` verdict. -/
theorem supervisee_poll_always_panics (s : OneForOneSupervisee) (now : Nat)
    (envE : Nat → ExitPoll) :
    OneForOneSupervisee.poll s now envE = .error "not yet implemented" :=
  rfl

/-- C5.  When the draining phase ends (`take_start_now` computes the final
verdict), if no slot is `Starting` (`StartFut`) and no slot is `Failed`
(`Irrecoverable`), the verdict is success: the running supervisee is
constructed by `OneForOneSupervisee.new inner`, i.e. from all the slots
exactly as they are — including slots still `Pending` (`Spec`) that were
never actually started. -/
theorem drain_verdict_success_keeps_slots (inner : OneForOneSpec)
    (h : ∀ i ∈ inner.items, i.isStartFut = false ∧ i.isIrrecoverable = false) :
    take_start_now inner = .ok (OneForOneSupervisee.new inner, ()) := by
  have hok := verdictFlags_ok_of_settled inner.items h
  simp [take_start_now, hok]

/-- Witness for C5 at a state holding a `Pending`, a `Running` and a `Done`
slot: the success verdict keeps the never-started `Pending` slot. -/
theorem drain_verdict_success_keeps_slots_witness :
    take_start_now
        { items := [.Spec 5, .Supervisee ⟨1, 0, 0⟩ none, .Completed],
          limiter := RestartLimiter.new 2 7 } =
      .ok (OneForOneSupervisee.new
        { items := [.Spec 5, .Supervisee ⟨1, 0, 0⟩ none, .Completed],
          limiter := RestartLimiter.new 2 7 }, ()) :=
  drain_verdict_success_keeps_slots _ (by decide)

/-- C6.  The verdict computed at the end of the draining phase is always
either a successful running supervisee (carrying the slots as they are) or
the group-wide irrecoverable error (carrying the whole state): the
`Completed` (already-complete) and `Failed` (retryable spec) branches of
`take_start_now` are unreachable, because any item that clears the `ok` flag
also sets the `irrecoverable` flag. -/
theorem drain_verdict_dichotomy (inner : OneForOneSpec) :
    take_start_now inner = .ok (OneForOneSupervisee.new inner, ()) ∨
      take_start_now inner =
        .error (.Irrecoverable { msg := "Error: ", state := inner }) := by
  rcases verdictFlags_ok_or_irr inner.items with hok | hirr
  · left; simp [take_start_now, hok]
  · rcases h : (verdictFlags inner.items).1 with _ | _
    · right; simp [take_start_now, h, hirr]
    · left; simp [take_start_now, h]

/-- The fan-out pass escalates (`start_failure`) exactly when one of its
`within_limit` calls reported budget exhaustion. -/
lemma fanOut_sf_iff_exhaustion (env : Nat → StartPoll) (now : Nat)
    (items : List OneForOneItem) :
    ∀ (idx : Nat) (l : RestartLimiter),
      ((fanOutStep env now idx l items).startFailure = true ↔
        false ∈ (fanOutStep env now idx l items).limTrace) := by
  induction items with
  | nil => intro idx l; simp [fanOutStep]
  | cons i rest ih =>
    intro idx l
    cases i with
    | StartFut f =>
      cases henv : env idx with
      | pending => simpa [fanOutStep, henv] using ih (idx + 1) l
      | ok sup => simpa [fanOutStep, henv] using ih (idx + 1) l
      | completed => simpa [fanOutStep, henv] using ih (idx + 1) l
      | failed spec =>
        cases hb : (l.within_limit now).2 with
        | true =>
          simpa [fanOutStep, henv, hb] using ih (idx + 1) (l.within_limit now).1
        | false => simp [fanOutStep, henv, hb]
      | irrecoverable e =>
        cases hb : (l.within_limit now).2 with
        | true =>
          simpa [fanOutStep, henv, hb] using ih (idx + 1) (l.within_limit now).1
        | false => simp [fanOutStep, henv, hb]
    | Spec spec => simpa [fanOutStep] using ih (idx + 1) l
    | Supervisee sup d => simpa [fanOutStep] using ih (idx + 1) l
    | Irrecoverable e => simpa [fanOutStep] using ih (idx + 1) l
    | Completed => simpa [fanOutStep] using ih (idx + 1) l

/-- In a pass in which the limiter never reported exhaustion, the limiter was
consulted exactly once per child start that resolved failed-recoverably or
irrecoverably. -/
lemma fanOut_trace_counts_failures (env : Nat → StartPoll) (now : Nat)
    (items : List OneForOneItem) :
    ∀ (idx : Nat) (l : RestartLimiter),
      false ∉ (fanOutStep env now idx l items).limTrace →
        (fanOutStep env now idx l items).limTrace.length =
          countFailures env idx items := by
  induction items with
  | nil => intro idx l _; simp [fanOutStep, countFailures]
  | cons i rest ih =>
    intro idx l hmem
    cases i with
    | StartFut f =>
      cases henv : env idx with
      | pending =>
        simp only [fanOutStep, henv] at hmem ⊢
        simpa [countFailures, henv] using ih (idx + 1) l hmem
      | ok sup =>
        simp only [fanOutStep, henv] at hmem ⊢
        simpa [countFailures, henv] using ih (idx + 1) l hmem
      | completed =>
        simp only [fanOutStep, henv] at hmem ⊢
        simpa [countFailures, henv] using ih (idx + 1) l hmem
      | failed spec =>
        cases hb : (l.within_limit now).2 with
        | true =>
          simp only [fanOutStep, henv, hb, if_true] at hmem ⊢
          simp only [List.mem_cons] at hmem
          push_neg at hmem
          simpa [countFailures, henv] using
            ih (idx + 1) (l.within_limit now).1 hmem.2
        | false =>
          exfalso
          apply hmem
          simp [fanOutStep, henv, hb]
      | irrecoverable e =>
        cases hb : (l.within_limit now).2 with
        | true =>
          simp only [fanOutStep, henv, hb, if_true] at hmem ⊢
          simp only [List.mem_cons] at hmem
          push_neg at hmem
          simpa [countFailures, henv] using
            ih (idx + 1) (l.within_limit now).1 hmem.2
        | false =>
          exfalso
          apply hmem
          simp [fanOutStep, henv, hb]
    | Spec spec =>
      simp only [fanOutStep] at hmem ⊢
      simpa [countFailures] using ih (idx + 1) l hmem
    | Supervisee sup d =>
      simp only [fanOutStep] at hmem ⊢
      simpa [countFailures] using ih (idx + 1) l hmem
    | Irrecoverable e =>
      simp only [fanOutStep] at hmem ⊢
      simpa [countFailures] using ih (idx + 1) l hmem
    | Completed =>
      simp only [fanOutStep] at hmem ⊢
      simpa [countFailures] using ih (idx + 1) l hmem

/-- C4.  In the fan-out phase: a child start resolving failed-recoverably
puts the slot back to `Pending` (the `Spec` it handed back) and consumes one
restart-budget unit — the pass's next limiter decision is exactly
`within_limit`'s answer on the current limiter state; a child start resolving
irrecoverably marks the slot `Failed` and likewise consults the limiter once;
the pass escalates into the draining phase exactly when some limiter decision
of the pass reported exhaustion — so an irrecoverable child with budget still
available never forces the draining phase by itself (fourth conjunct: with no
exhaustion, the pass just consumed one budget unit per failing child and
`start_failure` stays off by the third conjunct). -/
theorem fanout_limiter_escalation_policy (env : Nat → StartPoll) (now : Nat) :
    (∀ (idx : Nat) (l : RestartLimiter) (f : DynStartFut) (spec : DynSpec)
        (rest : List OneForOneItem),
      env idx = .failed spec →
        (fanOutStep env now idx l (.StartFut f :: rest)).items.head? =
            some (.Spec spec) ∧
          (fanOutStep env now idx l (.StartFut f :: rest)).limTrace.head? =
            some (l.within_limit now).2) ∧
    (∀ (idx : Nat) (l : RestartLimiter) (f : DynStartFut) (e : BoxError)
        (rest : List OneForOneItem),
      env idx = .irrecoverable e →
        (fanOutStep env now idx l (.StartFut f :: rest)).items.head? =
            some (.Irrecoverable e) ∧
          (fanOutStep env now idx l (.StartFut f :: rest)).limTrace.head? =
            some (l.within_limit now).2) ∧
    (∀ (items : List OneForOneItem) (idx : Nat) (l : RestartLimiter),
      (fanOutStep env now idx l items).startFailure = true ↔
        false ∈ (fanOutStep env now idx l items).limTrace) ∧
    (∀ (items : List OneForOneItem) (idx : Nat) (l : RestartLimiter),
      false ∉ (fanOutStep env now idx l items).limTrace →
        (fanOutStep env now idx l items).limTrace.length =
          countFailures env idx items) := by
  refine ⟨?_, ?_, ?_, ?_⟩
  · intro idx l f spec rest henv
    cases hb : (l.within_limit now).2 <;> simp [fanOutStep, henv, hb]
  · intro idx l f e rest henv
    cases hb : (l.within_limit now).2 <;> simp [fanOutStep, henv, hb]
  · intro items idx l
    exact fanOut_sf_iff_exhaustion env now items idx l
  · intro items idx l
    exact fanOut_trace_counts_failures env now items idx l

/-- Witness for C4: slot 0 resolves failed-recoverably and becomes `Pending`,
slot 1 resolves irrecoverably and becomes `Failed`; on a one-slot pass with
budget 1, the single limiter decision is within limit and no escalation
happens (the irrecoverable child alone does not force draining), and the pass
holds exactly one limiter decision. -/
theorem fanout_limiter_escalation_policy_witness :
    ((fanOutStep c4Env 3 0 (RestartLimiter.new 1 10) [.StartFut 1]).items.head? =
        some (.Spec 5) ∧
      (fanOutStep c4Env 3 0 (RestartLimiter.new 1 10) [.StartFut 1]).limTrace.head? =
        some ((RestartLimiter.new 1 10).within_limit 3).2) ∧
    ((fanOutStep c4Env 3 1 (RestartLimiter.new 1 10) [.StartFut 2]).items.head? =
        some (.Irrecoverable 6) ∧
      (fanOutStep c4Env 3 1 (RestartLimiter.new 1 10) [.StartFut 2]).limTrace.head? =
        some ((RestartLimiter.new 1 10).within_limit 3).2) ∧
    ((fanOutStep c4Env 3 1 (RestartLimiter.new 1 10) [.StartFut 2]).startFailure = true ↔
      false ∈ (fanOutStep c4Env 3 1 (RestartLimiter.new 1 10) [.StartFut 2]).limTrace) ∧
    (fanOutStep c4Env 3 1 (RestartLimiter.new 1 10) [.StartFut 2]).limTrace.length =
      countFailures c4Env 1 [.StartFut 2] :=
  ⟨(fanout_limiter_escalation_policy c4Env 3).1 0 (RestartLimiter.new 1 10) 1 5 [] rfl,
   (fanout_limiter_escalation_policy c4Env 3).2.1 1 (RestartLimiter.new 1 10) 2 6 [] rfl,
   (fanout_limiter_escalation_policy c4Env 3).2.2.1 [.StartFut 2] 1 (RestartLimiter.new 1 10),
   (fanout_limiter_escalation_policy c4Env 3).2.2.2 [.StartFut 2] 1
     (RestartLimiter.new 1 10) (by decide)⟩

/-- In a non-escalating fan-out pass, `all_ready` holds exactly when no slot
is left `Starting` (`StartFut`) after the pass. -/
lemma fanOut_allReady_iff_no_starting (env : Nat → StartPoll) (now : Nat)
    (items : List OneForOneItem) :
    ∀ (idx : Nat) (l : RestartLimiter),
      (fanOutStep env now idx l items).startFailure = false →
        ((fanOutStep env now idx l items).allReady = true ↔
          (fanOutStep env now idx l items).items.all
            (fun i => !i.isStartFut) = true) := by
  induction items with
  | nil => intro idx l _; simp [fanOutStep]
  | cons i rest ih =>
    intro idx l hsf
    cases i with
    | StartFut f =>
      cases henv : env idx with
      | pending => simp [fanOutStep, henv, OneForOneItem.isStartFut]
      | ok sup =>
        simp only [fanOutStep, henv] at hsf ⊢
        simpa [OneForOneItem.isStartFut] using ih (idx + 1) l hsf
      | completed =>
        simp only [fanOutStep, henv] at hsf ⊢
        simpa [OneForOneItem.isStartFut] using ih (idx + 1) l hsf
      | failed spec =>
        cases hb : (l.within_limit now).2 with
        | true =>
          simp only [fanOutStep, henv, hb, if_true] at hsf ⊢
          simpa [OneForOneItem.isStartFut] using
            ih (idx + 1) (l.within_limit now).1 hsf
        | false =>
          exfalso
          simp [fanOutStep, henv, hb] at hsf
      | irrecoverable e =>
        cases hb : (l.within_limit now).2 with
        | true =>
          simp only [fanOutStep, henv, hb, if_true] at hsf ⊢
          simpa [OneForOneItem.isStartFut] using
            ih (idx + 1) (l.within_limit now).1 hsf
        | false =>
          exfalso
          simp [fanOutStep, henv, hb] at hsf
    | Spec spec =>
      simp only [fanOutStep] at hsf ⊢
      simpa [OneForOneItem.isStartFut] using ih (idx + 1) l hsf
    | Supervisee sup d =>
      simp only [fanOutStep] at hsf ⊢
      simpa [OneForOneItem.isStartFut] using ih (idx + 1) l hsf
    | Irrecoverable e =>
      simp only [fanOutStep] at hsf ⊢
      simpa [OneForOneItem.isStartFut] using ih (idx + 1) l hsf
    | Completed =>
      simp only [fanOutStep] at hsf ⊢
      simpa [OneForOneItem.isStartFut] using ih (idx + 1) l hsf

/-- C3 (amended).  In the fan-out phase — polling with `start_failure` off,
no escalation in this pass, and the shared timer not firing at this instant —
the start future resolves as a successful running supervisee exactly when no
slot is left `Starting` by the pass; and when it does, the supervisee holds
exactly the slots as the pass left them (together with the updated limiter).
The original claim's stronger reading — success only with every slot
`Running`/`Done` — is refuted by `fanout_success_despite_pending_slot`: a
pass may leave `Pending` or `Failed` slots and still succeed. -/
theorem fanout_success_iff_no_starting (fut : OneForOneStartFut)
    (sp : OneForOneSpec) (now : Nat) (envS : Nat → StartPoll)
    (envE : Nat → ExitPoll) (hi : fut.inner = some sp)
    (hs : fut.start_failure = false)
    (hsf : (fanOutStep envS now 0 sp.limiter sp.items).startFailure = false)
    (ht : (time_limit_reached fut.timer now).2 = false) :
    (isReadyOk (pollStartFut fut now envS envE) = true ↔
      (fanOutStep envS now 0 sp.limiter sp.items).items.all
        (fun i => !i.isStartFut) = true) ∧
    (isReadyOk (pollStartFut fut now envS envE) = true →
      pollStartFut fut now envS envE =
        some ({ fut with inner := none },
          .ready (.ok (OneForOneSupervisee.new
            { items := (fanOutStep envS now 0 sp.limiter sp.items).items,
              limiter := (fanOutStep envS now 0 sp.limiter sp.items).limiter },
            ())))) := by
  have hiff := fanOut_allReady_iff_no_starting envS now sp.items 0 sp.limiter hsf
  cases har : (fanOutStep envS now 0 sp.limiter sp.items).allReady with
  | true =>
    constructor
    · rw [← hiff]
      simp [pollStartFut, hi, hs, hsf, har, isReadyOk]
    · intro _
      simp [pollStartFut, hi, hs, hsf, har]
  | false =>
    constructor
    · rw [← hiff]
      simp [pollStartFut, hi, hs, hsf, har, ht, isReadyOk]
    · intro hok
      exfalso
      simp [pollStartFut, hi, hs, hsf, har, ht, isReadyOk] at hok

/-- Witness for C3's amended characterization: a single child whose start
resolves, no escalation, timer unfired — the group resolves successfully and
the equivalence holds. -/
theorem fanout_success_iff_no_starting_witness :
    (isReadyOk (pollStartFut
        { inner := some { items := [.StartFut 1],
                          limiter := RestartLimiter.new 1 10 },
          timer := some 5, shutdown_time := 5, start_failure := false }
        0 (fun _ => .ok ⟨1, 0, 0⟩) (fun _ => .pending)) = true ↔
      (fanOutStep (fun _ => .ok ⟨1, 0, 0⟩) 0 0 (RestartLimiter.new 1 10)
        [.StartFut 1]).items.all (fun i => !i.isStartFut) = true) :=
  (fanout_success_iff_no_starting
    { inner := some { items := [.StartFut 1],
                      limiter := RestartLimiter.new 1 10 },
      timer := some 5, shutdown_time := 5, start_failure := false }
    { items := [.StartFut 1], limiter := RestartLimiter.new 1 10 }
    0 (fun _ => .ok ⟨1, 0, 0⟩) (fun _ => .pending) rfl rfl rfl rfl).1

/-- Counterexample to C3 as stated: with two `Starting` slots, restart budget
1, child 0's start failing recoverably (within budget) and child 1's start
succeeding, the group's start future resolves successfully in the fan-out
phase even though slot 0 is `Pending` again (and was never `Running` or
`Done`) — so "resolves successfully exactly when every slot has reached
Running or Done" is false on the code. -/
theorem fanout_success_despite_pending_slot :
    pollStartFut c3Fut 0 c3Env (fun _ => .pending) =
      some ({ inner := none, timer := some 50, shutdown_time := 50,
              start_failure := false },
        .ready (.ok (OneForOneSupervisee.new
          { items := [.Spec 1, .Supervisee ⟨2, 0, 0⟩ none],
            limiter := { limit := 1, within := 100, attempts := [0] } }, ()))) ∧
    (OneForOneItem.Spec 1).isStartFut = false ∧
    (OneForOneItem.Spec 1).isSpec = true := by
  exact ⟨rfl, rfl, rfl⟩

/-- C1 (amended).  One child whose start fails recoverably more times than
the limit-0 budget allows (its single failure already exceeds the budget) and
two children whose starts succeed: the pass escalates, the draining phase
runs until its shutdown timer fires, and the start future then resolves — not
irrecoverably, but as a *successful* running supervisee whose slots are the
failing child back in `Pending` and the two healthy children `Running`,
because the final verdict treats "no slot `Starting`, no slot `Failed`" as
success.  (The original claim's irrecoverable verdict is refuted by
`one_failing_child_group_resolves_ok_counterexample`.) -/
theorem one_failing_child_group_resolves_ok (a b c : DynSpec)
    (supB supC : DynSupervisee) (w now₂ : Nat) (h₂ : 10 ≤ now₂) :
    (c1Group a b c 0 w).start (fun _ => 0) 0 =
      .ok { inner := some { items := [.StartFut a, .StartFut b, .StartFut c],
                            limiter := { limit := 0, within := w, attempts := [] } },
            timer := some 10, shutdown_time := 10, start_failure := false } ∧
    pollStartFut
        { inner := some { items := [.StartFut a, .StartFut b, .StartFut c],
                          limiter := { limit := 0, within := w, attempts := [] } },
          timer := some 10, shutdown_time := 10, start_failure := false }
        0 (c1Env1 a supB supC) (fun _ => .pending) =
      some ({ inner := some
                { items := [.Spec a, .Supervisee supB none, .Supervisee supC none],
                  limiter := { limit := 0, within := w, attempts := [0] } },
              timer := some 10, shutdown_time := 10, start_failure := true },
            .pending) ∧
    pollStartFut
        { inner := some
            { items := [.Spec a, .Supervisee supB none, .Supervisee supC none],
              limiter := { limit := 0, within := w, attempts := [0] } },
          timer := some 10, shutdown_time := 10, start_failure := true }
        now₂ (fun _ => .pending) (fun _ => .pending) =
      some ({ inner := none, timer := none, shutdown_time := 10,
              start_failure := true },
            .ready (.ok (OneForOneSupervisee.new
              { items := [.Spec a, .Supervisee supB none, .Supervisee supC none],
                limiter := { limit := 0, within := w, attempts := [0] } }, ()))) := by
  refine ⟨rfl, rfl, ?_⟩
  simp [pollStartFut, drainPhase, drainStep, time_limit_reached, take_start_now,
    verdictFlags, OneForOneSupervisee.new, h₂]

/-- Witness for C1's amended statement at children `1`,`2`,`3`, window 100,
second poll at instant 10: the final poll resolves with the successful group
supervisee. -/
theorem one_failing_child_group_resolves_ok_witness :
    pollStartFut
        { inner := some
            { items := [.Spec 1, .Supervisee ⟨2, 0, 0⟩ none, .Supervisee ⟨3, 0, 0⟩ none],
              limiter := { limit := 0, within := 100, attempts := [0] } },
          timer := some 10, shutdown_time := 10, start_failure := true }
        10 (fun _ => .pending) (fun _ => .pending) =
      some ({ inner := none, timer := none, shutdown_time := 10,
              start_failure := true },
            .ready (.ok (OneForOneSupervisee.new
              { items := [.Spec 1, .Supervisee ⟨2, 0, 0⟩ none, .Supervisee ⟨3, 0, 0⟩ none],
                limiter := { limit := 0, within := 100, attempts := [0] } }, ()))) :=
  (one_failing_child_group_resolves_ok 1 2 3 ⟨2, 0, 0⟩ ⟨3, 0, 0⟩ 100 10
    (by decide)).2.2

/-- Counterexample to C1 as stated: the complete concrete run (`c1Run`:
limit 0, child 1 failing recoverably — once, which already exceeds the
budget —, children 2 and 3 starting successfully, draining until the shutdown
timer fires) resolves as a *success*, not as an irrecoverable failure. -/
theorem one_failing_child_group_resolves_ok_counterexample :
    isReadyIrrecoverable c1Run = false ∧ isReadyOk c1Run = true :=
  ⟨rfl, rfl⟩

/-- Every item ever returned inside `popSpecRev`'s remainder was an item of
the input list. -/
lemma popSpecRev_mem (L : List OneForOneItem) (i : OneForOneItem)
    (h : i ∈ (popSpecRev L).2) : i ∈ L := by
  induction L with
  | nil => simp [popSpecRev] at h
  | cons j rest ih =>
    cases j with
    | Spec spec =>
      simp only [popSpecRev] at h
      exact List.mem_cons_of_mem _ h
    | StartFut f => exact List.mem_cons_of_mem _ (ih (by simpa [popSpecRev] using h))
    | Supervisee sup d => exact List.mem_cons_of_mem _ (ih (by simpa [popSpecRev] using h))
    | Irrecoverable e => exact List.mem_cons_of_mem _ (ih (by simpa [popSpecRev] using h))
    | Completed => exact List.mem_cons_of_mem _ (ih (by simpa [popSpecRev] using h))

/-- If the final verdict is the retryable `Failed` spec, that spec is exactly
the `Spec` (`Pending`) items of the state, with the limiter carried over. -/
lemma take_start_now_failed_shape (inner s' : OneForOneSpec)
    (h : take_start_now inner = .error (.Failed s')) :
    s' = { items := inner.items.filter OneForOneItem.isSpec,
           limiter := inner.limiter } := by
  simp only [take_start_now] at h
  split_ifs at h <;> simp_all

/-- All-`Spec` item lists make the `start_time` fold succeed. -/
lemma maxStartTime_ok (f : DynSpec → Nat) (items : List OneForOneItem)
    (hall : ∀ i ∈ items, i.isSpec = true) :
    ∀ acc : Nat, ∃ v, maxStartTime f acc items = .ok v := by
  induction items with
  | nil => intro acc; exact ⟨acc, rfl⟩
  | cons i rest ih =>
    intro acc
    have hi := hall i (List.mem_cons_self i rest)
    have hrest : ∀ j ∈ rest, j.isSpec = true :=
      fun j hj => hall j (List.mem_cons_of_mem i hj)
    cases i with
    | Spec spec => exact ih hrest (max (f spec) acc)
    | StartFut g => simp [OneForOneItem.isSpec] at hi
    | Supervisee sup d => simp [OneForOneItem.isSpec] at hi
    | Irrecoverable e => simp [OneForOneItem.isSpec] at hi
    | Completed => simp [OneForOneItem.isSpec] at hi

/-- All-`Spec` item lists make the per-item `start` loop succeed. -/
lemma startItems_ok (items : List OneForOneItem)
    (hall : ∀ i ∈ items, i.isSpec = true) :
    ∃ l, startItems items = .ok l := by
  induction items with
  | nil => exact ⟨[], rfl⟩
  | cons i rest ih =>
    have hi := hall i (List.mem_cons_self i rest)
    have hrest : ∀ j ∈ rest, j.isSpec = true :=
      fun j hj => hall j (List.mem_cons_of_mem i hj)
    obtain ⟨l, hl⟩ := ih hrest
    cases i with
    | Spec spec =>
      refine ⟨.StartFut spec :: l, ?_⟩
      simp only [startItems, OneForOneItem.start, hl]
      rfl
    | StartFut g => simp [OneForOneItem.isSpec] at hi
    | Supervisee sup d => simp [OneForOneItem.isSpec] at hi
    | Irrecoverable e => simp [OneForOneItem.isSpec] at hi
    | Completed => simp [OneForOneItem.isSpec] at hi

/-- A spec whose items are all `Spec` starts without panicking. -/
lemma start_ok_of_all_spec (s : OneForOneSpec)
    (hall : ∀ i ∈ s.items, i.isSpec = true) (f : DynSpec → Nat) (now : Nat) :
    exceptIsOk (s.start f now) = true := by
  obtain ⟨v, hv⟩ := maxStartTime_ok f s.items hall 0
  obtain ⟨l, hl⟩ := startItems_ok s.items hall
  simp only [OneForOneSpec.start, hv, hl, exceptIsOk]
  rfl

/-- C10.  Every `OneForOneSpec` obtainable through the public interface
(`new`, `add_spec` — and `with_spec`, which is definitionally `add_spec` —,
`pop_spec`, and the retryable spec of a `Failed` verdict) contains only
`Spec` (`Pending`) items; consequently its `start` never reaches the
`"was not a spec"` branch of any item nor the panics of the deadline fold
and the per-item start loop: `start` succeeds, and so does each item's own
`start`. -/
theorem reachable_spec_starts_without_panic (s : OneForOneSpec)
    (h : ReachableSpec s) :
    (∀ i ∈ s.items, i.isSpec = true) ∧
    (∀ (f : DynSpec → Nat) (now : Nat), exceptIsOk (s.start f now) = true) ∧
    (∀ i ∈ s.items, exceptIsOk (OneForOneItem.start i) = true) := by
  have hall : ∀ i ∈ s.items, i.isSpec = true := by
    induction h with
    | new limit within => simp [OneForOneSpec.new]
    | add s d hs ih =>
      intro i hi
      simp only [OneForOneSpec.add_spec] at hi
      rcases List.mem_append.mp hi with hmem | hmem
      · exact ih i hmem
      · simp only [List.mem_singleton] at hmem
        subst hmem
        rfl
    | pop s hs ih =>
      intro i hi
      simp only [OneForOneSpec.pop_spec] at hi
      exact ih i (List.mem_reverse.mp (popSpecRev_mem _ i (List.mem_reverse.mp hi)))
    | retry inner s' heq =>
      intro i hi
      rw [take_start_now_failed_shape inner s' heq] at hi
      exact (List.mem_filter.mp hi).2
  refine ⟨hall, fun f now => start_ok_of_all_spec s hall f now, fun i hi => ?_⟩
  have := hall i hi
  cases i with
  | Spec spec => rfl
  | StartFut g => simp [OneForOneItem.isSpec] at this
  | Supervisee sup d => simp [OneForOneItem.isSpec] at this
  | Irrecoverable e => simp [OneForOneItem.isSpec] at this
  | Completed => simp [OneForOneItem.isSpec] at this

/-- Witness for C10: the publicly built group with two children starts
without panicking. -/
theorem reachable_spec_starts_without_panic_witness :
    exceptIsOk ((((OneForOneSpec.new 2 7).add_spec 4).add_spec 9).start
      (fun _ => 0) 3) = true :=
  (reachable_spec_starts_without_panic _
    (ReachableSpec.add _ 9 (ReachableSpec.add _ 4
      (ReachableSpec.new 2 7)))).2.1 (fun _ => 0) 3

/-- C7.  A single call of `halt` (respectively `abort`) on a running group
supervisee maps every slot through `haltItem` (respectively `abortItem`),
which sends exactly one `halt` (resp. `abort`) signal to the supervisee of a
`Running` slot — its signal counter grows by exactly one — and returns every
`Pending`, `Starting`, `Failed` and `Done` slot completely unchanged. -/
theorem halt_abort_signal_running_exactly_once (s : OneForOneSupervisee)
    (sp : OneForOneSpec) (h : s.inner = some sp) :
    OneForOneSupervisee.halt s =
      some { s with halted := true,
                    inner := some { sp with items := sp.items.map haltItem } } ∧
    OneForOneSupervisee.abort s =
      some { s with aborted := true,
                    inner := some { sp with items := sp.items.map abortItem } } ∧
    (∀ sup d, haltItem (.Supervisee sup d) =
        .Supervisee { sup with halts := sup.halts + 1 } d) ∧
    (∀ spec, haltItem (.Spec spec) = .Spec spec) ∧
    (∀ f, haltItem (.StartFut f) = .StartFut f) ∧
    (∀ e, haltItem (.Irrecoverable e) = .Irrecoverable e) ∧
    haltItem .Completed = .Completed ∧
    (∀ sup d, abortItem (.Supervisee sup d) =
        .Supervisee { sup with aborts := sup.aborts + 1 } d) ∧
    (∀ spec, abortItem (.Spec spec) = .Spec spec) ∧
    (∀ f, abortItem (.StartFut f) = .StartFut f) ∧
    (∀ e, abortItem (.Irrecoverable e) = .Irrecoverable e) ∧
    abortItem .Completed = .Completed := by
  refine ⟨?_, ?_, fun sup d => rfl, fun spec => rfl, fun f => rfl,
    fun e => rfl, rfl, fun sup d => rfl, fun spec => rfl, fun f => rfl,
    fun e => rfl, rfl⟩
  · simp [OneForOneSupervisee.halt, h]
  · simp [OneForOneSupervisee.abort, h]

/-- Witness for C7: halting a group whose slots are a `Running`, a `Done` and
a `Pending` slot signals the running child exactly once and leaves the other
two slots untouched. -/
theorem halt_abort_signal_running_exactly_once_witness :
    OneForOneSupervisee.halt
        (OneForOneSupervisee.new
          { items := [.Supervisee ⟨4, 0, 0⟩ none, .Completed, .Spec 2],
            limiter := RestartLimiter.new 1 5 }) =
      some { inner := some
               { items := [.Supervisee ⟨4, 1, 0⟩ none, .Completed, .Spec 2],
                 limiter := RestartLimiter.new 1 5 },
             halted := true, aborted := false } := by
  simpa using (halt_abort_signal_running_exactly_once
    (OneForOneSupervisee.new
      { items := [.Supervisee ⟨4, 0, 0⟩ none, .Completed, .Spec 2],
        limiter := RestartLimiter.new 1 5 }) _ rfl).1

end OneForOne

namespace ChannelSpec

/-- C8.  The `Ready` arm of the reference-forwarding wrapper's start future:
when the wrapped start resolves successfully, exactly the one reference `r`
produced by that start is pushed onto the channel (appended when the receiver
is alive) before the wrapper reports its own success, and a failed push (the
receiver is gone) changes nothing and still reports success; when the wrapped
start resolves failed-recoverable, nothing is pushed and the returned
retryable wrapper spec carries the same channel sender for the next
attempt. -/
theorem refSender_forwards_exactly_one_ref {S R Sup : Type} (tok : Nat)
    (sent : List R) (chan : Channel R) (sup : Sup) (r : R) (spec : S) :
    refSenderPollReady (some tok) { sent := sent, receiverOpen := true }
        (@InnerStart.ok S R Sup sup r) =
      some ({ sent := sent ++ [r], receiverOpen := true },
            .ok ({ supervisee := sup, sender := some tok }, ())) ∧
    refSenderPollReady (some tok) { sent := sent, receiverOpen := false }
        (@InnerStart.ok S R Sup sup r) =
      some ({ sent := sent, receiverOpen := false },
            .ok ({ supervisee := sup, sender := some tok }, ())) ∧
    refSenderPollReady (some tok) chan (@InnerStart.failure S R Sup spec) =
      some (chan, .error (.Failure { spec := spec, sender := some tok })) :=
  ⟨rfl, rfl, rfl⟩

end ChannelSpec

namespace Core

/-- C9.  Boxed-message roundtrip: erasing a value under its type code and
downcasting to the same code returns the original value; downcasting to any
other code fails and hands back the erased envelope unchanged — so (by the
first conjunct applied to that unchanged envelope) a later downcast to the
right code still succeeds with the original value. -/
theorem boxed_message_roundtrip (F : Nat → Type) (c : Nat) (v : F c)
    (c' : Nat) (h : c' ≠ c) :
    (Core.BoxedMessage.new F c v).downcast c = .ok v ∧
    (Core.BoxedMessage.new F c v).downcast c' =
      .error (Core.BoxedMessage.new F c v) := by
  constructor
  · simp [Core.BoxedMessage.new, Core.BoxedMessage.downcast]
  · have : ¬(c = c') := fun hc => h hc.symm
    simp [Core.BoxedMessage.new, Core.BoxedMessage.downcast, this]

/-- Witness for C9 with the code of `M` being 0, payload 42, and the distinct
code 1 for `M2`. -/
theorem boxed_message_roundtrip_witness :
    (Core.BoxedMessage.new (fun _ => Nat) 0 42).downcast 0 = .ok 42 ∧
    (Core.BoxedMessage.new (fun _ => Nat) 0 42).downcast 1 =
      .error (Core.BoxedMessage.new (fun _ => Nat) 0 42) :=
  boxed_message_roundtrip (fun _ => Nat) 0 42 1 (by decide)

end Core

end Zestors
